import Mathlib

/-!
Shallow embedding of `backend/app.py`: a FastAPI router with four routes
(`GET /`, `GET /history`, `POST /ask`, `POST /tts`) that forwards to three
external collaborators (`get_session_history`, `process_query`,
`text_to_speech`).  The collaborators live outside this repository, so they
appear here as parameters (pure state-passing functions over an explicit
store), while the router bodies are transcribed line by line from the source.
-/

/-- A chat message as the router observes it: Python attributes `type`
(the role tag, e.g. "human" or "ai") and `content`. -/
structure ChatMessage where
  type : String
  content : String
deriving DecidableEq, Repr

/-- Modelled from the spec: `SessionHistory` is missing from the repository
(only `get_session_history`'s call sites are shown); the spec describes it as
an "ordered sequence of ChatMessage", exposed to the router through a
`.messages` attribute. -/
structure SessionHistory where
  messages : List ChatMessage
deriving DecidableEq, Repr

/-- Modelled from the spec: the external session store maps an opaque
`session_id` to a `SessionHistory`, or to nothing for a session never seen
(`get_session_history(session_id) -> SessionHistory | absent`). -/
def Store : Type := String → Option SessionHistory

/-- Modelled from the spec: Python truthiness of a `SessionHistory` value
(the `if st:` test in `ask_question`); for a value that is an "ordered
sequence of ChatMessage" truthiness is non-emptiness of the sequence. -/
def seqTruthy (st : SessionHistory) : Bool :=
  !st.messages.isEmpty

/-- One element of the JSON `chat_history` array: `{"role": ..., "content": ...}`. -/
structure MsgJson where
  role : String
  content : String
deriving DecidableEq, Repr

/-- The reshaping both read paths apply per message:
`{"role": m.type, "content": m.content}`. -/
def reshape (m : ChatMessage) : MsgJson :=
  ⟨m.type, m.content⟩

/-- Modelled from the spec: `process_query(query, session_id) -> answer`,
"presumably mutating SessionStore as a side effect"; modelled as an explicit
state-passing function returning the answer and the updated store. -/
def ProcessQuery : Type := String → String → Store → String × Store

/-- Modelled from the spec: `text_to_speech(text, lang, voice) -> bytes`;
bytes are modelled as a list of naturals. -/
def TextToSpeech : Type := String → String → String → List Nat

/-- The `/history` reshaping applied to one store lookup result:
`if chat is None: return {"chat_history": []}` else map over `chat.messages`. -/
def historyChat : Option SessionHistory → List MsgJson
  | none => []
  | some chat => chat.messages.map reshape

/-- The `/ask` reshaping applied to one store lookup result:
`history = []`, then `if st: history = [... for msg in st.messages]`
(truthiness test, not a None test). -/
def askHistory : Option SessionHistory → List MsgJson
  | none => []
  | some st => if seqTruthy st then st.messages.map reshape else []

/-- Handler `get_history`: the value of the `chat_history` field returned by
`GET /history` for a given store state and `session_id`. -/
def get_history_chat (store : Store) (session_id : String) : List MsgJson :=
  historyChat (store session_id)

/-- Handler `ask_question`: calls `process_query`, re-fetches the session
history, and returns `((answer, chat_history), updated store)`. -/
def ask_question (pq : ProcessQuery) (store : Store) (query session_id : String) :
    (String × List MsgJson) × Store :=
  (((pq query session_id store).1,
    askHistory ((pq query session_id store).2 session_id)),
   (pq query session_id store).2)

/-- Handler `tts_endpoint`: returns the collaborator's bytes unmodified,
paired with the response media type `audio/mpeg`. -/
def tts_endpoint (ttsF : TextToSpeech) (text lang voice : String) :
    List Nat × String :=
  (ttsF text lang voice, "audio/mpeg")

/-- The string returned by `GET /` in its `message` field. -/
def root_message : String := "Careerist Chatbot Backend Running"

/-- An incoming request after form/query parsing; `Option` fields model
optional parameters, `none` meaning the field was omitted. -/
inductive Request where
  | root : Request
  | history (session_id : Option String) : Request
  | ask (query : String) (session_id : Option String) : Request
  | tts (text : String) (lang : Option String) (voice : Option String) : Request

/-- A response body: one constructor per route shape. -/
inductive Body where
  | rootMsg (message : String) : Body
  | history (chat_history : List MsgJson) : Body
  | ask (answer : String) (chat_history : List MsgJson) : Body
  | audio (content : List Nat) (media_type : String) : Body
deriving DecidableEq, Repr

/-- The router: dispatches a request to its handler, applying the declared
defaults for omitted optional fields (`session_id="default_session"`,
`lang="en"`, `voice="male"`), and threads the store state. -/
def handle (pq : ProcessQuery) (ttsF : TextToSpeech) (store : Store) :
    Request → Body × Store
  | .root => (.rootMsg root_message, store)
  | .history sid =>
      (.history (get_history_chat store (sid.getD "default_session")), store)
  | .ask q sid =>
      let r := ask_question pq store q (sid.getD "default_session")
      (.ask r.1.1 r.1.2, r.2)
  | .tts t l v =>
      let p := tts_endpoint ttsF t (l.getD "en") (v.getD "male")
      (.audio p.1 p.2, store)

/-- Modelled from the spec: the web framework returns HTTP status 200 for a
handler that returns normally; no handler in the router sets a status. -/
def http (pq : ProcessQuery) (ttsF : TextToSpeech) (store : Store)
    (req : Request) : Nat × Body × Store :=
  (200, handle pq ttsF store req)

/-- The store state after serving a sequence of prior requests. -/
def applyRequests (pq : ProcessQuery) (ttsF : TextToSpeech) (store : Store)
    (reqs : List Request) : Store :=
  reqs.foldl (fun s r => (handle pq ttsF s r).2) store

/-- The transcript the store holds for a session (empty for an absent one). -/
def msgsOf (store : Store) (sid : String) : List ChatMessage :=
  match store sid with
  | none => []
  | some h => h.messages

/-- The append-only hypothesis on the external store: a `process_query` call
only ever extends each session's transcript. -/
def AppendOnly (pq : ProcessQuery) : Prop :=
  ∀ q sid store s, ∃ t, msgsOf (pq q sid store).2 s = msgsOf store s ++ t

/-- The store state after a sequence of `POST /ask` calls with a fixed
`session_id`, one call per query in the list. -/
def storeAfterAsks (pq : ProcessQuery) (sid : String) (store : Store)
    (qs : List String) : Store :=
  qs.foldl (fun s q => (ask_question pq s q sid).2) store

/-- An opaque exception payload raised by a collaborator. -/
def Err : Type := String

/-- A fallible `process_query`: may raise instead of returning. -/
def ProcessQueryE : Type := String → String → Store → Except Err (String × Store)

/-- A fallible `text_to_speech`: may raise instead of returning. -/
def TextToSpeechE : Type := String → String → String → Except Err (List Nat)

/-- Handler `ask_question` over fallible collaborators, instrumented with the
ordered trace of collaborator calls it performs.  The transcription follows
the source's control flow: `process_query` is evaluated first at its single
call site; a raised exception aborts the handler there (no `try`/`except` in
the source), so `get_session_history` is never reached on that path. -/
def ask_traced (pq : ProcessQueryE) (store : Store) (query session_id : String) :
    Except Err ((String × List MsgJson) × Store) × List String :=
  match pq query session_id store with
  | .error e => (.error e, ["process_query"])
  | .ok (answer, store') =>
      (.ok ((answer, askHistory (store' session_id)), store'),
       ["process_query", "get_session_history"])

/-- Handler `tts_endpoint` over a fallible collaborator, instrumented with the
trace of collaborator calls; no `try`/`except` in the source, so an exception
propagates out of the handler unchanged. -/
def tts_traced (ttsF : TextToSpeechE) (text lang voice : String) :
    Except Err (List Nat × String) × List String :=
  match ttsF text lang voice with
  | .error e => (.error e, ["text_to_speech"])
  | .ok bytes => (.ok (bytes, "audio/mpeg"), ["text_to_speech"])

/-- A URL-encoded form body: an association list of field name and value. -/
def lookupForm (form : List (String × String)) (k : String) : Option String :=
  (form.find? (fun p => p.1 == k)).map (fun p => p.2)

/-- The outcome of routing a `POST /ask` request from a raw form body. -/
inductive AskRouteResult where
  | clientError (status : Nat) : AskRouteResult
  | serverError (e : Err) : AskRouteResult
  | ok (status : Nat) (answer : String) (chat_history : List MsgJson)
      (store : Store) : AskRouteResult

/-- Modelled from the spec: the web framework's form-parsing layer enforces
required-field presence — omitting `query` (declared `Form(...)`) yields a
client error 422 before the handler, and hence any collaborator, is invoked;
with `query` present the handler runs with `session_id` defaulted. -/
def ask_route (pq : ProcessQueryE) (store : Store)
    (form : List (String × String)) : AskRouteResult × List String :=
  match lookupForm form "query" with
  | none => (.clientError 422, [])
  | some q =>
      match ask_traced pq store q ((lookupForm form "session_id").getD "default_session") with
      | (.error e, tr) => (.serverError e, tr)
      | (.ok ((a, h), st'), tr) => (.ok 200 a h st', tr)

/-- A `process_query` model that answers without touching the store; used to
instantiate hypotheses at concrete inputs. -/
def pq_id : ProcessQuery := fun _ _ store => ("answer", store)

/-- A failing `process_query` model. -/
def pqE_fail : ProcessQueryE := fun _ _ _ => .error "boom"

/-- A failing `text_to_speech` model. -/
def ttsE_fail : TextToSpeechE := fun _ _ _ => .error "boom"

/-- A constant `text_to_speech` model. -/
def tts_const : TextToSpeech := fun _ _ _ => [1, 2, 3]

/-- The empty store: every session is absent. -/
def store_empty : Store := fun _ => none

/-- A concrete store holding one session whose transcript uses role tags
outside the `"human"`/`"ai"` enumeration. -/
def store_demo : Store := fun s =>
  if s = "s1" then some ⟨[⟨"system", "hello"⟩, ⟨"weird", "x"⟩]⟩ else none

/-- The two reshapings agree on every store lookup result: the truthiness
test differs from the None test only when the history is an empty sequence,
where mapping yields the empty list anyway. -/
theorem askHistory_eq_historyChat (o : Option SessionHistory) :
    askHistory o = historyChat o := by
  cases o with
  | none => rfl
  | some st =>
      show (if seqTruthy st then st.messages.map reshape else [])
          = st.messages.map reshape
      by_cases hb : seqTruthy st
      · simp [hb]
      · have hnil : st.messages = [] := by
          simpa [seqTruthy] using hb
        simp [hb, hnil]

/-- C1: for every session id and every fixed store snapshot, the
`chat_history` field computed inside `POST /ask` equals what a subsequent
`GET /history` observing the same snapshot returns: the None test and the
truthiness test, each followed by the per-message reshaping, agree. -/
theorem ask_history_consistent (pq : ProcessQuery) (store : Store)
    (q sid : String) :
    (ask_question pq store q sid).1.2 =
      get_history_chat (ask_question pq store q sid).2 sid :=
  askHistory_eq_historyChat ((pq q sid store).2 sid)

/-- The length of the `/history` transcript equals the length of the stored
transcript: both the None branch and the mapping preserve length. -/
theorem get_history_chat_length (store : Store) (sid : String) :
    (get_history_chat store sid).length = (msgsOf store sid).length := by
  unfold get_history_chat historyChat msgsOf
  cases store sid with
  | none => rfl
  | some h => simp

/-- C2: assuming the external store is append-only, the transcript length
returned by `GET /history` after a sequence of `POST /ask` calls with a fixed
`session_id` is monotonically non-decreasing: one more `/ask` call never
shortens it. -/
theorem ask_history_length_monotone (pq : ProcessQuery) (hA : AppendOnly pq)
    (sid : String) (store : Store) (qs : List String) (q : String) :
    (get_history_chat (storeAfterAsks pq sid store qs) sid).length ≤
      (get_history_chat (storeAfterAsks pq sid store (qs ++ [q])) sid).length := by
  have hstep : storeAfterAsks pq sid store (qs ++ [q]) =
      (ask_question pq (storeAfterAsks pq sid store qs) q sid).2 := by
    unfold storeAfterAsks
    rw [List.foldl_append]
    rfl
  rw [get_history_chat_length, get_history_chat_length, hstep]
  have hask : (ask_question pq (storeAfterAsks pq sid store qs) q sid).2 =
      (pq q sid (storeAfterAsks pq sid store qs)).2 := rfl
  rw [hask]
  obtain ⟨t, ht⟩ := hA q sid (storeAfterAsks pq sid store qs) sid
  rw [ht]
  simp

/-- Witness for C2: the no-op `process_query` is append-only, and the
monotonicity theorem applies to it at a concrete store and call sequence. -/
theorem ask_history_length_monotone_witness :
    AppendOnly pq_id ∧
    (get_history_chat (storeAfterAsks pq_id "s1" store_demo ["a"]) "s1").length ≤
      (get_history_chat (storeAfterAsks pq_id "s1" store_demo (["a"] ++ ["b"])) "s1").length := by
  have hA : AppendOnly pq_id := by
    intro q sid store s
    exact ⟨[], by simp [pq_id]⟩
  exact ⟨hA, ask_history_length_monotone pq_id hA "s1" store_demo ["a"] "b"⟩

/-- C3: a `GET /history` request for a session the store has never seen
returns status 200 with an empty `chat_history`, not an error. -/
theorem history_unknown_session_empty (pq : ProcessQuery) (ttsF : TextToSpeech)
    (store : Store) (sid : String) (h : store sid = none) :
    http pq ttsF store (.history (some sid)) = (200, .history [], store) := by
  unfold http handle get_history_chat historyChat
  simp [h]

/-- Witness for C3: the empty store maps every session to absent, and the
theorem evaluates `/history` there to the empty transcript. -/
theorem history_unknown_session_empty_witness :
    http pq_id tts_const store_empty (.history (some "nope")) =
      (200, .history [], store_empty) :=
  history_unknown_session_empty pq_id tts_const store_empty "nope" rfl

/-- C4: `GET /` returns the constant message with status 200, whatever the
store state and whatever requests were served before. -/
theorem root_constant (pq : ProcessQuery) (ttsF : TextToSpeech) (store : Store)
    (reqs : List Request) :
    http pq ttsF (applyRequests pq ttsF store reqs) .root =
      (200, .rootMsg "Careerist Chatbot Backend Running",
       applyRequests pq ttsF store reqs) :=
  rfl

/-- C5: the `POST /tts` response body is exactly the byte sequence returned by
`text_to_speech(text, lang, voice)`, unmodified, with media type
`audio/mpeg` — both at handler level and through the router. -/
theorem tts_passthrough (pq : ProcessQuery) (ttsF : TextToSpeech)
    (store : Store) (t l v : String) :
    tts_endpoint ttsF t l v = (ttsF t l v, "audio/mpeg") ∧
    handle pq ttsF store (.tts t (some l) (some v)) =
      (.audio (ttsF t l v) "audio/mpeg", store) :=
  ⟨rfl, rfl⟩

/-- C6: a collaborator exception in `/ask` or `/tts` propagates out of the
handler unchanged — nothing is caught, no retry happens, and no further
collaborator call is made after the failure (the call trace stops at the
failing collaborator). -/
theorem collaborator_error_propagates (pq : ProcessQueryE)
    (ttsF : TextToSpeechE) (store : Store) (q sid t l v : String) (e f : Err) :
    (pq q sid store = .error e →
      ask_traced pq store q sid = (.error e, ["process_query"])) ∧
    (ttsF t l v = .error f →
      tts_traced ttsF t l v = (.error f, ["text_to_speech"])) := by
  constructor
  · intro h
    simp only [ask_traced, h]
  · intro h
    simp only [tts_traced, h]

/-- Witness for C6: concrete failing collaborators; both handlers return the
same error with a one-element call trace. -/
theorem collaborator_error_propagates_witness :
    ask_traced pqE_fail store_empty "q" "s" = (.error "boom", ["process_query"]) ∧
    tts_traced ttsE_fail "t" "en" "male" = (.error "boom", ["text_to_speech"]) :=
  ⟨(collaborator_error_propagates pqE_fail ttsE_fail store_empty
      "q" "s" "t" "en" "male" "boom" "boom").1 rfl,
   (collaborator_error_propagates pqE_fail ttsE_fail store_empty
      "q" "s" "t" "en" "male" "boom" "boom").2 rfl⟩

/-- C7: a `POST /ask` form without the required `query` field is rejected with
client error 422 (a 4xx, not a 500), and `process_query` is never invoked
(the collaborator call trace is empty). -/
theorem ask_missing_query_client_error (pq : ProcessQueryE) (store : Store)
    (form : List (String × String)) (h : lookupForm form "query" = none) :
    ask_route pq store form = (.clientError 422, []) := by
  simp only [ask_route, h]

/-- Witness for C7: a form carrying only `session_id` has no `query` field,
and routing it yields the 422 client error with no collaborator call. -/
theorem ask_missing_query_client_error_witness :
    ask_route pqE_fail store_empty [("session_id", "s")] =
      (.clientError 422, []) :=
  ask_missing_query_client_error pqE_fail store_empty [("session_id", "s")] rfl

/-- C8: omitting an optional field behaves identically to passing its
documented default explicitly: `session_id="default_session"` on `/history`
and `/ask`, `lang="en"` and `voice="male"` on `/tts`, each field
independently. -/
theorem omitted_fields_use_defaults (pq : ProcessQuery) (ttsF : TextToSpeech)
    (store : Store) (q t l v : String) :
    handle pq ttsF store (.history none) =
      handle pq ttsF store (.history (some "default_session")) ∧
    handle pq ttsF store (.ask q none) =
      handle pq ttsF store (.ask q (some "default_session")) ∧
    handle pq ttsF store (.tts t none none) =
      handle pq ttsF store (.tts t (some "en") (some "male")) ∧
    handle pq ttsF store (.tts t none (some v)) =
      handle pq ttsF store (.tts t (some "en") (some v)) ∧
    handle pq ttsF store (.tts t (some l) none) =
      handle pq ttsF store (.tts t (some l) (some "male")) :=
  ⟨rfl, rfl, rfl, rfl, rfl⟩

/-- C9: `GET /history` and `POST /tts` leave the session store unchanged; only
`POST /ask` (through `process_query`) can mutate it. -/
theorem history_tts_no_mutation (pq : ProcessQuery) (ttsF : TextToSpeech)
    (store : Store) (sid : Option String) (t : String) (l v : Option String) :
    (handle pq ttsF store (.history sid)).2 = store ∧
    (handle pq ttsF store (.tts t l v)).2 = store :=
  ⟨rfl, rfl⟩

/-- C10: the router neither validates nor transforms transcript content: when
the store holds a transcript for a session, both read paths return exactly one
object per stored message, in store order, with `role` verbatim from the
message's `type` attribute and `content` verbatim from its `content`
attribute — any role string passes through unchanged. -/
theorem transcript_verbatim_passthrough (store : Store) (sid : String)
    (h : SessionHistory) (hs : store sid = some h) :
    get_history_chat store sid =
      h.messages.map (fun m => MsgJson.mk m.type m.content) ∧
    ∀ (pq : ProcessQuery) (q : String) (st0 : Store),
      (pq q sid st0).2 = store →
      (ask_question pq st0 q sid).1.2 =
        h.messages.map (fun m => MsgJson.mk m.type m.content) := by
  have hmap : h.messages.map reshape =
      h.messages.map (fun m => MsgJson.mk m.type m.content) := rfl
  constructor
  · unfold get_history_chat historyChat
    rw [hs]
    exact hmap
  · intro pq q st0 hpq
    show askHistory ((pq q sid st0).2 sid) = _
    rw [hpq]
    rw [askHistory_eq_historyChat]
    unfold historyChat
    rw [hs]
    exact hmap

/-- Witness for C10: a stored transcript whose role tags `"system"` and
`"weird"` lie outside the `"human"`/`"ai"` enumeration is returned verbatim by
both read paths. -/
theorem transcript_verbatim_passthrough_witness :
    get_history_chat store_demo "s1" =
      [⟨"system", "hello"⟩, ⟨"weird", "x"⟩] ∧
    (ask_question pq_id store_demo "q" "s1").1.2 =
      [⟨"system", "hello"⟩, ⟨"weird", "x"⟩] := by
  have h := transcript_verbatim_passthrough store_demo "s1"
    ⟨[⟨"system", "hello"⟩, ⟨"weird", "x"⟩]⟩ rfl
  exact ⟨h.1, h.2 pq_id "q" store_demo rfl⟩
